import Mathlib

/-!
Verification development for the Seoul crime/population reconciliation
pipeline (seoul_method.py, seoul_service.py, save/kakao_map_singleton.py).
Python strings are modelled as Lean String values (lists of characters),
missing dataframe cells (NaN) as Option, Python floats as exact rationals,
and the stateful singleton as an explicit state-transition function.
-/

deriving instance DecidableEq for Except

namespace SeoulCrime

/-- Cell models one dataframe cell that is either a missing value (NaN,
modelled as none) or a string value. -/
abbrev Cell := Option String

/-- Strips characters satisfying a predicate from both ends of a character
list, as the Python str.strip family does. -/
def stripEnds (p : Char → Bool) (l : List Char) : List Char :=
  ((l.dropWhile p).reverse.dropWhile p).reverse

/-- Models Python str.strip() with no argument: whitespace removed from
both ends. -/
def pyStrip (l : List Char) : List Char :=
  stripEnds Char.isWhitespace l

/-- Models Python str.strip(c) for a single strip character c. -/
def pyStripChar (c : Char) (l : List Char) : List Char :=
  stripEnds (fun d => d == c) l

/-- Tests whether the first character list starts the second. -/
def leadsWith : List Char → List Char → Bool
  | [], _ => true
  | _ :: _, [] => false
  | a :: as, b :: bs => a == b && leadsWith as bs

/-- Boolean substring test on character lists, the model of the Python
containment operator on strings. -/
def isSubstring (p : List Char) : List Char → Bool
  | [] => p.isEmpty
  | c :: t => leadsWith p (c :: t) || isSubstring p t

/-- Models Python str.endswith for a literal suffix. -/
def pyEndsWith (s suffix : String) : Bool :=
  suffix.data.isSuffixOf s.data

/-- Codepoint-lexicographic order on strings as Bool, matching the order
Python (and pandas groupby) uses on str keys. -/
def strLeB : List Char → List Char → Bool
  | [], _ => true
  | _ :: _, [] => false
  | a :: as, b :: bs =>
    if a.toNat < b.toNat then true
    else if b.toNat < a.toNat then false
    else strLeB as bs

/-- Reads a run of decimal digits that may contain single underscores
between digits (the Python int()/float() digit-group grammar), returning
the value and the number of digits, or none if the run is malformed. -/
def digitsAux (acc : ℕ) (cnt : ℕ) : List Char → Option (ℕ × ℕ)
  | [] => some (acc, cnt)
  | c :: cs =>
    if c.isDigit then digitsAux (10 * acc + (c.toNat - 48)) (cnt + 1) cs
    else if c == '_' then
      match cs with
      | [] => none
      | d :: _ => if d.isDigit then digitsAux acc cnt cs else none
    else none

/-- Validated digit group: must start with a digit (no leading underscore). -/
def digitsVal? : List Char → Option (ℕ × ℕ)
  | [] => none
  | c :: cs => if c.isDigit then digitsAux 0 0 (c :: cs) else none

/-- Signed integer literal after the sign character is split off. -/
def intMag? : List Char → Option ℤ
  | '+' :: rest => (digitsVal? rest).map (fun p => (p.1 : ℤ))
  | '-' :: rest => (digitsVal? rest).map (fun p => -(p.1 : ℤ))
  | l => (digitsVal? l).map (fun p => (p.1 : ℤ))

/-- Models Python int(s): surrounding whitespace ignored, optional sign,
decimal digits with optional underscore separators; none on failure. -/
def pyInt? (l : List Char) : Option ℤ :=
  intMag? (pyStrip l)

/-- Unsigned decimal literal with an optional fractional part, covering
the grammar digits, digits.digits, digits. and .digits. -/
def floatMag? (l : List Char) : Option ℚ :=
  let ip := l.takeWhile (fun c => c ≠ '.')
  match l.dropWhile (fun c => c ≠ '.') with
  | [] => (digitsVal? ip).map (fun p => ((p.1 : ℤ) : ℚ))
  | _ :: fp =>
    if fp.isEmpty then (digitsVal? ip).map (fun p => ((p.1 : ℤ) : ℚ))
    else if ip.isEmpty then
      (digitsVal? fp).map (fun p => (p.1 : ℚ) / 10 ^ p.2)
    else
      match digitsVal? ip, digitsVal? fp with
      | some pi, some pf => some ((pi.1 : ℚ) + (pf.1 : ℚ) / 10 ^ pf.2)
      | _, _ => none

/-- Models Python float(s) on the decimal forms occurring in this data:
surrounding whitespace ignored, optional sign, integer digits and an
optional fractional part (exponent, inf and nan forms do not occur in the
modelled tables); none on failure. -/
def pyFloat? (l : List Char) : Option ℚ :=
  match pyStrip l with
  | '+' :: rest => floatMag? rest
  | '-' :: rest => (floatMag? rest).map (fun q => -q)
  | rest => floatMag? rest

/-- Models the str_to_float helper used throughout seoul_service.py:
NaN becomes 0.0, commas are removed, the trimmed string is parsed as a
float, and any parse failure yields 0.0. -/
def str_to_float (c : Cell) : ℚ :=
  match c with
  | none => 0
  | some s => (pyFloat? (s.data.filter (fun ch => ch ≠ ','))).getD 0

/-- Models the integer parse inside sum_string_numbers of
_merge_duplicate_gu: NaN is skipped (contributes 0), commas are removed,
int() is attempted and a failure contributes 0. -/
def pyIntCell (c : Cell) : ℤ :=
  match c with
  | none => 0
  | some s => (pyInt? (s.data.filter (fun ch => ch ≠ ','))).getD 0

/-- Decimal digit characters of a natural number, most significant first,
computed with an explicit fuel bound so the definition is structural. -/
def natDigitsAux : ℕ → ℕ → List Char
  | 0, _ => []
  | fuel + 1, n =>
    if n = 0 then []
    else natDigitsAux fuel (n / 10) ++ [Char.ofNat (48 + n % 10)]

/-- Decimal digit characters of a natural number, most significant first. -/
def natDigits (n : ℕ) : List Char :=
  if n = 0 then ['0'] else natDigitsAux (n + 1) n

/-- Inserts a comma after every run of three characters counted from the
right; the input is the reversed digit list. -/
def commaAux : ℕ → List Char → List Char
  | _, [] => []
  | 0, c :: cs => ',' :: c :: commaAux 2 cs
  | k + 1, c :: cs => c :: commaAux k cs

/-- Models the Python format string inserting thousands separators,
as used to re-serialize aggregated counts in _merge_duplicate_gu. -/
def formatComma (n : ℤ) : String :=
  ((if n < 0 then ['-'] else []) ++ (commaAux 3 (natDigits n.natAbs).reverse).reverse).asString

/-- Half-even (banker) rounding to an integer, the rounding mode of
Python round() and pandas/numpy .round(). -/
def roundHalfEven (x : ℚ) : ℤ :=
  let f := ⌊x⌋
  let r := x - f
  if r < 1 / 2 then f
  else if 1 / 2 < r then f + 1
  else if f % 2 = 0 then f else f + 1

/-- Models pandas Series.round(d): half-even rounding at d decimal
places. -/
def pyRound (d : ℕ) (x : ℚ) : ℚ :=
  (roundHalfEven (x * 10 ^ d) : ℚ) / 10 ^ d

/-! Geocode resolver model (save/kakao_map_singleton.py geocode). -/

/-- One address component in the Google-Maps-like shape consumed by
_get_district_from_kakao_maps. -/
structure AddressComponent where
  long_name : String
  short_name : String
  types : List String
deriving DecidableEq

/-- Latitude/longitude pair inside a geometry object. -/
structure GeoLocation where
  lat : ℚ
  lng : ℚ
deriving DecidableEq

/-- Geometry object wrapping a location, as built by geocode. -/
structure GeoGeometry where
  location : GeoLocation
deriving DecidableEq

/-- Value stored under one key of a geocode result dictionary. -/
inductive GeoVal where
  | str : String → GeoVal
  | geom : GeoGeometry → GeoVal
  | comps : List AddressComponent → GeoVal
deriving DecidableEq

/-- A geocode result entry modelled as the underlying key/value list of
the Python dict, so that the set of keys present is observable. -/
abbrev GeoEntry := List (String × GeoVal)

/-- Dictionary lookup on an entry (dict.get without default). -/
def entryLookup (e : GeoEntry) (k : String) : Option GeoVal :=
  (e.find? (fun p => p.1 == k)).map Prod.snd

/-- Models entry.get("formatted_address", "") as used on geocode
results. -/
def getFormattedAddress (e : GeoEntry) : String :=
  match entryLookup e "formatted_address" with
  | some (.str s) => s
  | _ => ""

/-- Models entry.get("address_components", []) as used on geocode
results. -/
def getComponents (e : GeoEntry) : List AddressComponent :=
  match entryLookup e "address_components" with
  | some (.comps l) => l
  | _ => []

/-- One raw document of the upstream keyword-search response body. -/
structure KakaoDoc where
  place_name : String
  address_name : String
  road_address_name : String
  x : String
  y : String
deriving DecidableEq

/-- The upstream HTTP response as observed by geocode: status code, the
message field of an error body, and the documents array of a success
body. -/
structure HttpResponse where
  status : ℕ
  errorMessage : String
  documents : List KakaoDoc
deriving DecidableEq

/-- Errors that escape geocode.  Only HTTP errors other than 403 escape:
they are raised by raise_for_status as RequestException and re-raised by
the first except clause. -/
inductive GeoErr where
  | httpStatus : ℕ → GeoErr
deriving DecidableEq

/-- Builds the single success entry of geocode: a dict holding exactly
the keys formatted_address and geometry. -/
def mkGeoEntry (addr : String) (lat lng : ℚ) : GeoEntry :=
  [("formatted_address", .str addr), ("geometry", .geom ⟨⟨lat, lng⟩⟩)]

/-- Models geocode of KakaoMapSingleton on a received HTTP response.
On status 403 the code raises ValueError, but that exception is caught by
the final generic except clause of the same try block, which logs and
returns the empty list; so a 403 yields ok [] exactly like an empty
result set.  Other non-2xx statuses raise through raise_for_status as
RequestException and are re-raised.  A success takes the first document
only, converts its coordinates with float() (a conversion failure is
swallowed by the generic except clause into an empty list), and picks
address_name, falling back to road_address_name when empty. -/
def geocode (resp : HttpResponse) : Except GeoErr (List GeoEntry) :=
  if resp.status = 403 then
    .ok []
  else if 400 ≤ resp.status then
    .error (.httpStatus resp.status)
  else
    match resp.documents with
    | [] => .ok []
    | doc :: _ =>
      match pyFloat? doc.y.data, pyFloat? doc.x.data with
      | some lat, some lng =>
        .ok [mkGeoEntry (if doc.address_name ≠ "" then doc.address_name else doc.road_address_name) lat lng]
      | _, _ => .ok []

/-! District resolver model (seoul_method.py). -/

/-- Models str.replace of the station suffix by the district suffix.
Python replace substitutes every occurrence; for a single-character
pattern and replacement this is a character map. -/
def replaceSeoGu (s : String) : String :=
  (s.data.map (fun c => if c = '서' then '구' else c)).asString

/-- Modelled from the claim wording, for comparison with the source: the
station name with only its final character replaced by the district
suffix character. -/
def specFinalSuffixRewrite (s : String) : String :=
  (s.data.dropLast ++ ['구']).asString

/-- Hangul syllable test, the character class of the district regex. -/
def isHangulSyllable (c : Char) : Bool :=
  0xAC00 ≤ c.toNat && c.toNat ≤ 0xD7A3

/-- Greedy match of the district pattern anchored at the start of a
Hangul run: the prefix of the run up to its last district-suffix
character, required to have length at least two. -/
def lastGuSeg (run : List Char) : Option (List Char) :=
  match ((List.range run.length).filter
      (fun i => decide (1 ≤ i) && (run.get? i == some '구'))).getLast? with
  | some i => some (run.take (i + 1))
  | none => none

/-- Models re.search for a run of Hangul characters ending in the
district suffix: the scan tries successive start positions left to
right, and at each start the greedy repetition takes the longest Hangul
prefix that still ends in the suffix. -/
def guSearch : List Char → Option String
  | [] => none
  | c :: cs =>
    match lastGuSeg ((c :: cs).takeWhile isHangulSyllable) with
    | some m => some m.asString
    | none => guSearch cs

/-- Models the component loop of _get_district_from_kakao_maps: the
first component whose types contain one of the two locality markers and
whose long_name contains the district suffix character. -/
def componentSearch (e : GeoEntry) : Option String :=
  ((getComponents e).find? (fun comp =>
    (comp.types.contains "sublocality_level_1"
      || comp.types.contains "administrative_area_level_2")
    && comp.long_name.data.contains '구')).map (fun comp => comp.long_name)

/-- District extraction from the first geocode entry: the component loop
first, then the regex search over the formatted address. -/
def extractFromEntry (e : GeoEntry) : Option String :=
  match componentSearch e with
  | some d => some d
  | none => guSearch (getFormattedAddress e).data

/-- Environment of the district resolver: the known-district set taken
from the 기관명 column of the CCTV table, and the geocode oracle giving
the outcome of one keyword-search call per query. -/
structure ResolverEnv where
  validDistricts : List String
  geocode : String → Except GeoErr (List GeoEntry)

/-- Fallback applied when the geocode lookup yields nothing usable:
retry the suffix-replacement rule, else return the name unchanged. -/
def stationFallback (name : String) : String :=
  if pyEndsWith name "서" then replaceSeoGu name else name

/-- Models _get_district_from_kakao_maps.  The second component of the
result counts geocode calls: this helper always performs exactly one.
A geocode error is caught by the except clause and degrades to the
fallback rule. -/
def _get_district_from_kakao_maps (env : ResolverEnv) (name : String) : String × ℕ :=
  let d := match env.geocode (name ++ " 서울") with
    | .ok (e :: _) => (extractFromEntry e).getD (stationFallback name)
    | _ => stationFallback name
  (d, 1)

/-- Models station_to_district of seoul_method.py.  The second component
of the result counts geocode calls made during the resolution. -/
def station_to_district (env : ResolverEnv) (name : String) : String × ℕ :=
  if pyEndsWith name "서" then
    let district := replaceSeoGu name
    if district ∈ env.validDistricts then (district, 0)
    else _get_district_from_kakao_maps env name
  else _get_district_from_kakao_maps env name

/-! Singleton construction model (save/kakao_map_singleton.py). -/

/-- Environment variables supplying the geocoding API key. -/
structure KeyEnv where
  restKey : Option String
  mapKey : Option String
deriving DecidableEq

/-- Python truthiness of an optional string: set and non-empty. -/
def truthy : Option String → Bool
  | none => false
  | some s => s ≠ ""

/-- Models _retrieve_api_key: the first truthy of the two environment
variables, or none, in which case the constructor raises ValueError. -/
def retrieveApiKey (env : KeyEnv) : Option String :=
  let k := if truthy env.restKey then env.restKey else env.mapKey
  if truthy k then k else none

/-- The singleton instance object.  apiKey is none when the _api_key
attribute was never assigned because _retrieve_api_key raised during the
first construction. -/
structure KakaoInstance where
  apiKey : Option String
deriving DecidableEq

/-- Error raised by the singleton constructor. -/
inductive KakaoError where
  | configurationMissing
deriving DecidableEq

/-- Models KakaoMapSingleton.__new__ as a transition on the class-level
_instance variable: an existing instance is returned unchanged without
reading the environment; otherwise the instance is assigned first and
the key retrieved second, so a missing key raises while leaving a
keyless instance stored. -/
def kakaoNew (env : KeyEnv) :
    Option KakaoInstance → Except KakaoError KakaoInstance × Option KakaoInstance
  | some inst => (.ok inst, some inst)
  | none =>
    match retrieveApiKey env with
    | some k => (.ok ⟨some k⟩, some (⟨some k⟩ : KakaoInstance))
    | none => (.error .configurationMissing, some (⟨none⟩ : KakaoInstance))

/-! Crime table model and duplicate-district aggregation
(seoul_service.py _merge_duplicate_gu). -/

/-- The five crime categories of the crime table. -/
inductive Category where
  | murder
  | robbery
  | rape
  | theft
  | violence
deriving DecidableEq

/-- One cell per category, covering the five occurrence columns or the
five clearance columns of the crime table. -/
structure CatStats where
  murder : Cell
  robbery : Cell
  rape : Cell
  theft : Cell
  violence : Cell
deriving DecidableEq

/-- Accessor of a category column. -/
def CatStats.get (s : CatStats) : Category → Cell
  | .murder => s.murder
  | .robbery => s.robbery
  | .rape => s.rape
  | .theft => s.theft
  | .violence => s.violence

/-- Builds the per-category cells from a function. -/
def CatStats.ofFun (f : Category → Cell) : CatStats :=
  ⟨f .murder, f .robbery, f .rape, f .theft, f .violence⟩

/-- One crime-table row after the district column has been attached:
station name cell, the ten crime count cells and the district string. -/
structure CrimeRow where
  station : Cell
  occur : CatStats
  arrest : CatStats
  district : String
deriving DecidableEq

/-- Group keys of the aggregation: the unique district names in
codepoint-sorted order, as pandas groupby produces them. -/
def groupKeys (rows : List CrimeRow) : List String :=
  List.insertionSort (fun a b : String => strLeB a.data b.data = true)
    (rows.map (fun r => r.district)).dedup

/-- The aggregated row for one district: each count column is the sum of
the parsed group values re-serialized with thousands separators, and the
station name is the first contributor's value in input order. -/
def aggRow (rows : List CrimeRow) (d : String) : CrimeRow :=
  let grp := rows.filter (fun r => r.district == d)
  { station := match grp with
      | [] => some ""
      | r :: _ => r.station
    occur := CatStats.ofFun (fun c =>
      some (formatComma ((grp.map (fun r => pyIntCell (r.occur.get c))).sum)))
    arrest := CatStats.ofFun (fun c =>
      some (formatComma ((grp.map (fun r => pyIntCell (r.arrest.get c))).sum)))
    district := d }

/-- Models _merge_duplicate_gu: group the crime rows by district and
aggregate each group. -/
def _merge_duplicate_gu (rows : List CrimeRow) : List CrimeRow :=
  (groupKeys rows).map (aggRow rows)

/-! Population reconciliation model (seoul_service.py preprocess,
lines 171-275). -/

/-- Models normalize_gu_name: NaN becomes the empty string, otherwise
whitespace is stripped, then double quotes, then single quotes, then
whitespace again. -/
def normalize_gu_name (c : Cell) : String :=
  match c with
  | none => ""
  | some s => (pyStrip (pyStripChar '\'' (pyStripChar '"' (pyStrip s.data)))).asString

/-- Models replace of the district suffix by the empty string: every
occurrence of the character is removed. -/
def stripGu (s : String) : String :=
  (s.data.filter (fun c => c ≠ '구')).asString

/-- The similarity disjunction of the mapping loop: substring
containment in either direction, or equality after removing every
district-suffix character from both sides. -/
def simRule (cg gu : String) : Bool :=
  isSubstring cg.data gu.data || isSubstring gu.data cg.data || (stripGu cg == stripGu gu)

/-- Models the gu_mapping construction: for every crime district that is
non-empty, not the special-cased 종로구, and absent from the population
names, the first population name satisfying the similarity disjunction
is recorded. -/
def buildGuMapping (crimeGus popGus : List String) : List (String × String) :=
  crimeGus.filterMap (fun cg =>
    if cg ≠ "" ∧ cg ≠ "종로구" ∧ cg ∉ popGus then
      (popGus.find? (fun gu => simRule cg gu)).map (fun gu => (cg, gu))
    else none)

/-- Models the reverse dictionary built from gu_mapping: the crime name
of the last mapping pair carrying the given population name. -/
def revLookup (m : List (String × String)) (n : String) : Option String :=
  (m.reverse.find? (fun p => p.2 == n)).map Prod.fst

/-- Applies the reverse mapping to the population table names. -/
def applyGuMapping (pop : List (String × ℚ)) (m : List (String × String)) :
    List (String × ℚ) :=
  pop.map (fun p => ((revLookup m p.1).getD p.1, p.2))

/-- Models the 종로구 special handling of preprocess: when the exact
name is absent from the original population names, the first name
containing 종로 is renamed to 종로구; then, when the crime table has
종로구, a missing population row is appended with the hard-coded
correction constant, and an existing row whose first value differs from
the constant is overwritten with it. -/
def jongnoFix (crimeGus : List String) (pop : List (String × ℚ)) :
    List (String × ℚ) :=
  let popGus := pop.map Prod.fst
  let pop1 :=
    if "종로구" ∈ popGus then pop
    else
      match popGus.filter (fun gu => isSubstring "종로".data gu.data) with
      | [] => pop
      | v :: _ => pop.map (fun p => (if p.1 == v then "종로구" else p.1, p.2))
  if "종로구" ∈ crimeGus then
    if "종로구" ∉ pop1.map Prod.fst then
      pop1 ++ [("종로구", 162820)]
    else
      match (pop1.filter (fun p => p.1 == "종로구")).head? with
      | some p =>
        if p.2 ≠ 162820 then
          pop1.map (fun q => (q.1, if q.1 == "종로구" then 162820 else q.2))
        else pop1
      | none => pop1
  else pop1

/-- The name-reconciliation pass of preprocess: 종로구 special handling
followed by the similarity mapping applied to the population names. -/
def reconcilePop (crimeGus : List String) (pop : List (String × ℚ)) :
    List (String × ℚ) :=
  let pop1 := jongnoFix crimeGus pop
  applyGuMapping pop1 (buildGuMapping crimeGus (pop1.map Prod.fst))

/-- One row of the merged crime/population table: the crime row and the
population cell produced by the left join, which is missing (NaN) when
no population row matched. -/
structure JoinedRow where
  row : CrimeRow
  pop : Option ℚ
deriving DecidableEq

/-- Join contribution of one crime row: one output row per population
row of the same district, or a single row with a missing population
value when none matches. -/
def joinRow (pop : List (String × ℚ)) (r : CrimeRow) : List JoinedRow :=
  match pop.filter (fun p => p.1 == r.district) with
  | [] => [⟨r, none⟩]
  | m :: ms => (m :: ms).map (fun p => ⟨r, some p.2⟩)

/-- Models pd.merge of the crime table with the population table on the
district column with how set to left: every crime row is kept, matched
against each population row of the same name, and an unmatched crime row
receives a missing population value. -/
def leftJoinPop (crime : List CrimeRow) (pop : List (String × ℚ)) :
    List JoinedRow :=
  crime.flatMap (joinRow pop)

/-- Models str_to_float applied to a merged population cell that is
already numeric or missing, as the downstream heatmap step does before
computing rates. -/
def popCellToFloat : Option ℚ → ℚ
  | none => 0
  | some q => q

/-! Derived rate columns (seoul_service.py generate_heatmap). -/

/-- One crime-with-population row in the crime_with_gu shape consumed by
generate_heatmap. -/
structure PopCrimeRow where
  district : String
  pop : Cell
  occur : CatStats
  arrest : CatStats

/-- One work row after every numeric column has been converted with
str_to_float. -/
structure WorkRow where
  district : String
  pop : ℚ
  occur : Category → ℚ
  arrest : Category → ℚ

/-- The numeric conversion step of generate_heatmap. -/
def toWorkRow (r : PopCrimeRow) : WorkRow :=
  { district := r.district
    pop := str_to_float r.pop
    occur := fun c => str_to_float (r.occur.get c)
    arrest := fun c => str_to_float (r.arrest.get c) }

/-- Models the per-100k occurrence rate of generate_heatmap: the column
is initialized to 0.0 and the rounded formula is assigned only on the
mask of rows with positive population, so a zero or missing population
yields 0. -/
def occurRate (w : WorkRow) (c : Category) : ℚ :=
  if 0 < w.pop then pyRound 1 (w.occur c / w.pop * 100000) else 0

/-- Models the clearance rate of generate_heatmap: the column is
initialized to 0.0 and the rounded formula is assigned only on the mask
of rows with positive occurrence count. -/
def arrestRate (w : WorkRow) (c : Category) : ℚ :=
  if 0 < w.occur c then pyRound 1 (w.arrest c / w.occur c * 100) else 0

/-! Rate normalization (seoul_service.py generate_heatmap lines 619-636
and generate_crime_rate_map lines 900-916, identical logic). -/

/-- Clamp of negative values to 0, the first normalization step. -/
def clampNeg (v : ℚ) : ℚ :=
  if v < 0 then 0 else v

/-- Clamp into the unit interval, the post-division guard. -/
def clamp01 (v : ℚ) : ℚ :=
  if v < 0 then 0 else if 1 < v then 1 else v

/-- Models one column of the rate normalization: negative values are
clamped to 0 first; the column maximum is taken over the clamped column
(written as a fold with neutral element 0, which agrees with the pandas
maximum because the clamped column is nonnegative, and makes both
branches yield the empty column on empty input exactly as the pandas
code does); a positive maximum divides every value by it, rounds to 4
decimals and re-clamps into the unit interval, and otherwise the whole
column is set to 0. -/
def normalizeColumn (vs : List ℚ) : List ℚ :=
  let clamped := vs.map clampNeg
  let m := clamped.foldr max 0
  if 0 < m then clamped.map (fun v => clamp01 (pyRound 4 (v / m)))
  else clamped.map (fun _ => 0)

/-! Concrete fixtures used by witnesses and counterexamples. -/

/-- Resolver environment whose CCTV-derived district set holds 마포구. -/
def mapoEnv : ResolverEnv := ⟨["마포구"], fun _ => .ok []⟩

/-- Resolver environment whose CCTV-derived district set holds 서대문구;
the geocode oracle returns an empty result set. -/
def seodaemunEnv : ResolverEnv := ⟨["서대문구"], fun _ => .ok []⟩

/-- Upstream document of a successful keyword search. -/
def docEx : KakaoDoc :=
  ⟨"방배경찰서", "서울 강남구 방배동", "서울 강남구 테헤란로 1", "127", "37"⟩

/-- Successful upstream response carrying one document. -/
def respEx : HttpResponse := ⟨200, "", [docEx]⟩

/-- The entry geocode builds from docEx. -/
def geoEntryEx : GeoEntry :=
  mkGeoEntry "서울 강남구 방배동" ((37 : ℤ) : ℚ) ((127 : ℤ) : ℚ)

/-- Crime row used in the join examples. -/
def c4row : CrimeRow :=
  ⟨some "마포서", ⟨some "0", some "0", some "0", some "0", some "0"⟩,
    ⟨some "0", some "0", some "0", some "0", some "0"⟩, "마포구"⟩

/-- Crime row with the internal-space district of the C5 scenario. -/
def jongnoRow : CrimeRow :=
  ⟨some "종로서", ⟨some "0", some "0", some "0", some "0", some "0"⟩,
    ⟨some "0", some "0", some "0", some "0", some "0"⟩, "종로 구"⟩

/-- First crime row of the C8 scenario. -/
def crimeRowA : CrimeRow :=
  ⟨some "강남서A", ⟨some "3", some "0", some "0", some "0", some "0"⟩,
    ⟨some "0", some "0", some "0", some "0", some "0"⟩, "강남구"⟩

/-- Second crime row of the C8 scenario. -/
def crimeRowB : CrimeRow :=
  ⟨some "강남서B", ⟨some "5", some "0", some "0", some "0", some "0"⟩,
    ⟨some "0", some "0", some "0", some "0", some "0"⟩, "강남구"⟩

/-- The aggregated row of the C8 scenario. -/
def crimeRowAgg : CrimeRow :=
  ⟨some "강남서A", ⟨some "8", some "0", some "0", some "0", some "0"⟩,
    ⟨some "0", some "0", some "0", some "0", some "0"⟩, "강남구"⟩

/-- Row of the C2 witness: population 2, one murder occurrence. -/
def rateRowEx : PopCrimeRow :=
  ⟨"마포구", some "2", ⟨some "1", some "0", some "0", some "0", some "0"⟩,
    ⟨some "0", some "0", some "0", some "0", some "0"⟩⟩

/-- Reading a category column of cells built from a function. -/
theorem CatStats.get_ofFun (f : Category → Cell) (c : Category) :
    (CatStats.ofFun f).get c = f c := by
  cases c <;> rfl

/-! Claim C1. -/

/-- C1 (amended): for every station name ending in the station suffix
whose replace-all rewrite (every 서 replaced by 구, which is what
str.replace does) lies in the known-district set, station_to_district
returns that rewrite and makes no geocode call. -/
theorem station_to_district_validated_rewrite (env : ResolverEnv) (name : String)
    (h1 : pyEndsWith name "서" = true)
    (h2 : replaceSeoGu name ∈ env.validDistricts) :
    station_to_district env name = (replaceSeoGu name, 0) := by
  simp [station_to_district, h1, h2]

/-- Witness for C1 at the 마포서/마포구 scenario of the spec, where the
station suffix occurs only at the final position and both rewrites
coincide. -/
theorem station_to_district_validated_rewrite_witness :
    pyEndsWith "마포서" "서" = true
    ∧ replaceSeoGu "마포서" = "마포구"
    ∧ replaceSeoGu "마포서" ∈ mapoEnv.validDistricts
    ∧ station_to_district mapoEnv "마포서" = (replaceSeoGu "마포서", 0) :=
  ⟨by decide, by decide, by decide,
    station_to_district_validated_rewrite mapoEnv "마포서" (by decide) (by decide)⟩

/-- Counterexample to C1 as stated: for 서대문서 the rewrite of the
final character only is 서대문구, which is in the known-district set,
yet the code rewrites every occurrence of the suffix (str.replace),
obtains the unknown name 구대문구, and therefore falls through to a
geocode call and returns 구대문구, not 서대문구, with one call. -/
theorem station_to_district_final_rewrite_counterexample :
    pyEndsWith "서대문서" "서" = true
    ∧ specFinalSuffixRewrite "서대문서" = "서대문구"
    ∧ "서대문구" ∈ seodaemunEnv.validDistricts
    ∧ station_to_district seodaemunEnv "서대문서" ≠ (specFinalSuffixRewrite "서대문서", 0)
    ∧ station_to_district seodaemunEnv "서대문서" = ("구대문구", 1) := by
  decide

/-! Claim C3. -/

/-- C3: a 403 response does not escape geocode as a permission-denied
error.  The ValueError raised for 403 is caught by the generic except
clause of the same try block, so a 403 returns the empty list, the very
value returned for an empty result set; only other 4xx/5xx statuses
escape (as re-raised RequestException). -/
theorem geocode_403_swallowed :
    geocode ⟨403, "forbidden", []⟩ = .ok []
    ∧ geocode ⟨403, "forbidden", [docEx]⟩ = .ok []
    ∧ geocode ⟨200, "", []⟩ = .ok []
    ∧ geocode ⟨500, "server error", []⟩ = .error (.httpStatus 500) := by
  decide

/-! Claim C9. -/

/-- C9 (amended): an existing singleton instance is returned unchanged
by any later construction without reading the environment again; the
first construction reads the key once and caches it in the stored
instance; when neither environment variable supplies a key the first
construction itself raises the configuration error, leaving a keyless
instance stored. -/
theorem kakao_singleton_spec :
    (∀ env inst, kakaoNew env (some inst) = (.ok inst, some inst))
    ∧ (∀ env k, retrieveApiKey env = some k →
        kakaoNew env none = (.ok ⟨some k⟩, some (⟨some k⟩ : KakaoInstance)))
    ∧ (∀ env, retrieveApiKey env = none →
        kakaoNew env none = (.error .configurationMissing, some (⟨none⟩ : KakaoInstance))) := by
  refine ⟨fun env inst => rfl, fun env k h => ?_, fun env h => ?_⟩
  · simp [kakaoNew, h]
  · simp [kakaoNew, h]

/-- Witness for C9: the missing-key error at first construction, and a
successful first construction caching the key. -/
theorem kakao_singleton_spec_witness :
    kakaoNew ⟨none, none⟩ none
      = (.error .configurationMissing, some (⟨none⟩ : KakaoInstance))
    ∧ kakaoNew ⟨some "k", none⟩ none
      = (.ok ⟨some "k"⟩, some (⟨some "k"⟩ : KakaoInstance)) :=
  ⟨kakao_singleton_spec.2.2 ⟨none, none⟩ (by decide),
    kakao_singleton_spec.2.1 ⟨some "k", none⟩ "k" (by decide)⟩

/-- Counterexample to C9 as stated: with both variables absent the fatal
configuration error is raised by the first construction itself, before
any geocode attempt (the constructor assigns the class instance first
and retrieves the key second, so the error surfaces at construction
time); a second construction then returns the stored keyless instance
as if it had succeeded. -/
theorem kakao_lazy_error_counterexample :
    kakaoNew ⟨none, none⟩ none
      = (.error .configurationMissing, some (⟨none⟩ : KakaoInstance))
    ∧ (kakaoNew ⟨none, none⟩ none).1 ≠ .ok (⟨none⟩ : KakaoInstance)
    ∧ kakaoNew ⟨none, none⟩ (some ⟨none⟩)
      = (.ok (⟨none⟩ : KakaoInstance), some (⟨none⟩ : KakaoInstance)) := by
  decide

/-! Claim C10. -/

/-- C10: every entry of a successful geocode result carries exactly the
keys formatted_address and geometry (never address_components), hence
the component loop of _get_district_from_kakao_maps finds nothing and
district extraction proceeds through the regex search on the formatted
address. -/
theorem geocode_entry_shape (resp : HttpResponse) (entries : List GeoEntry)
    (h : geocode resp = .ok entries) :
    ∀ e ∈ entries,
      e.map Prod.fst = ["formatted_address", "geometry"]
      ∧ getComponents e = []
      ∧ componentSearch e = none
      ∧ extractFromEntry e = guSearch (getFormattedAddress e).data := by
  unfold geocode at h
  split at h
  · cases h
    intro e he
    cases he
  · split at h
    · cases h
    · split at h
      · cases h
        intro e he
        cases he
      · split at h
        · cases h
          intro e he
          rw [List.mem_singleton] at he
          subst he
          exact ⟨rfl, rfl, rfl, rfl⟩
        · cases h
          intro e he
          cases he

/-- Witness for C10 at a concrete successful response. -/
theorem geocode_entry_shape_witness :
    geocode respEx = .ok [geoEntryEx]
    ∧ geoEntryEx.map Prod.fst = ["formatted_address", "geometry"]
    ∧ componentSearch geoEntryEx = none
    ∧ extractFromEntry geoEntryEx = guSearch (getFormattedAddress geoEntryEx).data
    ∧ guSearch (getFormattedAddress geoEntryEx).data = some "강남구" :=
  ⟨by decide,
    (geocode_entry_shape respEx [geoEntryEx] (by decide) geoEntryEx (by decide)).1,
    (geocode_entry_shape respEx [geoEntryEx] (by decide) geoEntryEx (by decide)).2.2.1,
    (geocode_entry_shape respEx [geoEntryEx] (by decide) geoEntryEx (by decide)).2.2.2,
    by decide⟩

/-! Claim C4. -/

/-- C4 (amended): the left join keeps every crime row; a crime row whose
district matches no population row receives a missing (NaN) population
value, not an explicit 0, and only the later permissive numeric parse of
the rate step turns that missing value into 0; a matched row carries a
population value present in the population table for its district. -/
theorem leftJoinPop_spec (crime : List CrimeRow) (pop : List (String × ℚ)) :
    (∀ r ∈ crime, ∃ j ∈ leftJoinPop crime pop, j.row = r)
    ∧ (∀ j ∈ leftJoinPop crime pop,
        (j.row.district ∉ pop.map Prod.fst → j.pop = none ∧ popCellToFloat j.pop = 0)
        ∧ (∀ q, j.pop = some q → (j.row.district, q) ∈ pop)) := by
  constructor
  · intro r hr
    have hchunk : ∃ j ∈ joinRow pop r, j.row = r := by
      unfold joinRow
      split
      · exact ⟨⟨r, none⟩, List.mem_singleton.mpr rfl, rfl⟩
      · rename_i m ms heq
        exact ⟨⟨r, some m.2⟩, List.mem_map.mpr ⟨m, List.mem_cons_self m ms, rfl⟩, rfl⟩
    obtain ⟨j, hj, hjr⟩ := hchunk
    exact ⟨j, List.mem_flatMap.mpr ⟨r, hr, hj⟩, hjr⟩
  · intro j hj
    obtain ⟨r, hr, hchunk⟩ := List.mem_flatMap.mp hj
    unfold joinRow at hchunk
    split at hchunk
    · rw [List.mem_singleton] at hchunk
      subst hchunk
      refine ⟨fun _ => ⟨rfl, rfl⟩, fun q hq => ?_⟩
      simp at hq
    · rename_i m ms heq
      obtain ⟨p, hp, hpe⟩ := List.mem_map.mp hchunk
      rw [← heq] at hp
      obtain ⟨hpPop, hpKey⟩ := List.mem_filter.mp hp
      have hkey : p.1 = r.district := beq_iff_eq.mp hpKey
      subst hpe
      constructor
      · intro habs
        exact absurd (hkey ▸ List.mem_map_of_mem Prod.fst hpPop) habs
      · intro q hq
        have hq2 : q = p.2 := by
          simpa using hq.symm
        subst hq2
        rw [← hkey]
        exact hpPop

/-- Witness for C4: retention of a crime row with no population match,
and the missing population value of its joined row together with the
downstream default of 0. -/
theorem leftJoinPop_spec_witness :
    (∃ j ∈ leftJoinPop [c4row] [("강남구", 100)], j.row = c4row)
    ∧ (⟨c4row, none⟩ : JoinedRow).pop = none
    ∧ popCellToFloat (⟨c4row, none⟩ : JoinedRow).pop = 0 :=
  ⟨(leftJoinPop_spec [c4row] [("강남구", 100)]).1 c4row (by decide),
    ((leftJoinPop_spec [c4row] [("강남구", 100)]).2 ⟨c4row, none⟩ (by decide)).1 (by decide)⟩

/-- Counterexample to C4 as stated: after the left join the unmatched
crime row carries a missing (NaN) population value, not an explicit 0;
the code only logs a warning about such rows and performs no fill. -/
theorem leftJoin_explicit_fill_counterexample :
    (leftJoinPop [c4row] [("강남구", 100)]).map (fun j => j.pop) = [none]
    ∧ ¬ (∀ j ∈ leftJoinPop [c4row] [("강남구", 100)],
          j.row.district ∉ [("강남구", (100 : ℚ))].map Prod.fst → j.pop = some 0) := by
  decide

/-! Claim C5. -/

/-- C5 (amended): for every crime district that is non-empty, differs
from the special-cased 종로구, and is absent from the population names,
the mapping records the first population name satisfying the similarity
disjunction (substring containment in either direction, or equality
after removing every district-suffix character); every recorded pair has
an absent crime name and a matching population name.  Exact matching can
never apply because only absent names are considered. -/
theorem buildGuMapping_spec (crimeGus popGus : List String) (cg p : String)
    (h0 : cg ∈ crimeGus) (h1 : cg ≠ "") (h2 : cg ≠ "종로구") (h3 : cg ∉ popGus)
    (h4 : popGus.find? (fun gu => simRule cg gu) = some p) :
    (cg, p) ∈ buildGuMapping crimeGus popGus
    ∧ simRule cg p = true
    ∧ ∀ q ∈ buildGuMapping crimeGus popGus, q.1 ∉ popGus ∧ simRule q.1 q.2 = true := by
  refine ⟨?_, List.find?_some h4, ?_⟩
  · apply List.mem_filterMap.mpr
    refine ⟨cg, h0, ?_⟩
    split
    · rw [h4]
      rfl
    · rename_i hneg
      exact absurd ⟨h1, h2, h3⟩ hneg
  · intro q hq
    obtain ⟨cg', hcg', heq⟩ := List.mem_filterMap.mp hq
    by_cases hc : cg' ≠ "" ∧ cg' ≠ "종로구" ∧ cg' ∉ popGus
    · rw [if_pos hc] at heq
      cases hfind : popGus.find? (fun gu => simRule cg' gu) with
      | none => rw [hfind] at heq; cases heq
      | some p' =>
        rw [hfind] at heq
        simp only [Option.map_some'] at heq
        cases heq
        exact ⟨hc.2.2, List.find?_some hfind⟩
    · rw [if_neg hc] at heq
      cases heq

/-- Witness for C5 at a pair matched by the substring rule. -/
theorem buildGuMapping_spec_witness :
    ("강남구", "서울강남구") ∈ buildGuMapping ["강남구"] ["서울강남구"]
    ∧ simRule "강남구" "서울강남구" = true :=
  ⟨(buildGuMapping_spec ["강남구"] ["서울강남구"] "강남구" "서울강남구"
      (by decide) (by decide) (by decide) (by decide) (by decide)).1,
    (buildGuMapping_spec ["강남구"] ["서울강남구"] "강남구" "서울강남구"
      (by decide) (by decide) (by decide) (by decide) (by decide)).2.1⟩

/-- Counterexample to C5 as stated: the crime district 종로 구 (internal
space) and the population district 종로구 do not reconcile.  None of the
rules matches (removing every 구 leaves a trailing space on the crime
side), normalize_gu_name keeps the internal space, the mapping stays
empty, the population name is left unchanged, and the left join gives
the crime row a missing population value rather than the 종로구 row. -/
theorem jongno_space_counterexample :
    normalize_gu_name (some "종로 구") = "종로 구"
    ∧ simRule "종로 구" "종로구" = false
    ∧ buildGuMapping ["종로 구"] ((jongnoFix ["종로 구"] [("종로구", 162820)]).map Prod.fst) = []
    ∧ reconcilePop ["종로 구"] [("종로구", 162820)] = [("종로구", 162820)]
    ∧ (leftJoinPop [jongnoRow] (reconcilePop ["종로 구"] [("종로구", 162820)])).map
        (fun j => j.pop) = [none] := by
  decide

/-! Claim C8. -/

/-- District column of the aggregated table: exactly the sorted unique
group keys. -/
theorem merge_districts_eq (rows : List CrimeRow) :
    (_merge_duplicate_gu rows).map (fun r => r.district) = groupKeys rows := by
  unfold _merge_duplicate_gu
  rw [List.map_map]
  have h : ((fun r => r.district) ∘ aggRow rows) = id := funext fun d => rfl
  rw [h, List.map_id]

/-- C8: the aggregation yields exactly one row per unique district name
(no duplicate survives and no district is lost); in every output row
each of the ten count columns is the comma-formatted sum of the parsed
group values (unparseable or missing cells contributing 0), and the
station name is the first contributor's value in input order. -/
theorem merge_duplicate_gu_spec (rows : List CrimeRow) :
    ((_merge_duplicate_gu rows).map (fun r => r.district)).Nodup
    ∧ (∀ r ∈ rows, r.district ∈ (_merge_duplicate_gu rows).map (fun r => r.district))
    ∧ ∀ g ∈ _merge_duplicate_gu rows,
        (∀ c : Category,
          g.occur.get c = some (formatComma
            (((rows.filter (fun r => r.district == g.district)).map
              (fun r => pyIntCell (r.occur.get c))).sum))
          ∧ g.arrest.get c = some (formatComma
            (((rows.filter (fun r => r.district == g.district)).map
              (fun r => pyIntCell (r.arrest.get c))).sum)))
        ∧ g.station = (match rows.filter (fun r => r.district == g.district) with
            | [] => some ""
            | r :: _ => r.station) := by
  refine ⟨?_, ?_, ?_⟩
  · rw [merge_districts_eq]
    exact (List.perm_insertionSort _ _).symm.nodup (List.nodup_dedup _)
  · intro r hr
    rw [merge_districts_eq]
    exact (List.mem_insertionSort _).mpr
      (List.mem_dedup.mpr (List.mem_map_of_mem (fun r => r.district) hr))
  · intro g hg
    obtain ⟨d, hd, hgd⟩ := List.mem_map.mp hg
    subst hgd
    refine ⟨fun c => ⟨?_, ?_⟩, rfl⟩
    · show (CatStats.ofFun _).get c = _
      rw [CatStats.get_ofFun]
      rfl
    · show (CatStats.ofFun _).get c = _
      rw [CatStats.get_ofFun]
      rfl

/-- Witness for C8: two rows of district 강남구 with occurrence counts 3
and 5 aggregate to a single row with count 8 that keeps the first
station name. -/
theorem merge_duplicate_gu_spec_witness :
    crimeRowAgg ∈ _merge_duplicate_gu [crimeRowA, crimeRowB]
    ∧ crimeRowAgg.occur.get .murder = some (formatComma
        ((([crimeRowA, crimeRowB].filter
          (fun r => r.district == crimeRowAgg.district)).map
            (fun r => pyIntCell (r.occur.get .murder))).sum))
    ∧ crimeRowAgg.occur.get .murder = some "8"
    ∧ crimeRowAgg.station = some "강남서A" :=
  ⟨by decide,
    (((merge_duplicate_gu_spec [crimeRowA, crimeRowB]).2.2 crimeRowAgg (by decide)).1 .murder).1,
    by decide, by decide⟩

/-- Rounding an integer changes nothing. -/
theorem roundHalfEven_intCast (k : ℤ) : roundHalfEven (k : ℚ) = k := by
  unfold roundHalfEven
  rw [Int.floor_intCast]
  norm_num

/-! Claim C2. -/

/-- C2: for every row and category, the per-100k occurrence rate equals
the rounded formula exactly when the converted population is positive
and is 0 when the population is 0 or the cell is missing (the mask
initialization makes it 0, never a division result); likewise the
clearance rate equals the rounded formula exactly when the occurrence
count is positive and is 0 when it is 0. -/
theorem heatmap_rate_zero_guard (r : PopCrimeRow) (c : Category) :
    (0 < (toWorkRow r).pop →
      occurRate (toWorkRow r) c
        = pyRound 1 ((toWorkRow r).occur c / (toWorkRow r).pop * 100000))
    ∧ ((toWorkRow r).pop = 0 → occurRate (toWorkRow r) c = 0)
    ∧ (r.pop = none → occurRate (toWorkRow r) c = 0)
    ∧ (0 < (toWorkRow r).occur c →
      arrestRate (toWorkRow r) c
        = pyRound 1 ((toWorkRow r).arrest c / (toWorkRow r).occur c * 100))
    ∧ ((toWorkRow r).occur c = 0 → arrestRate (toWorkRow r) c = 0) := by
  refine ⟨fun h => ?_, fun h => ?_, fun h => ?_, fun h => ?_, fun h => ?_⟩
  · rw [occurRate, if_pos h]
  · rw [occurRate, if_neg]
    rw [h]
    exact lt_irrefl 0
  · rw [occurRate, if_neg]
    show ¬ 0 < str_to_float r.pop
    rw [h]
    exact lt_irrefl 0
  · rw [arrestRate, if_pos h]
  · rw [arrestRate, if_neg]
    rw [h]
    exact lt_irrefl 0

/-- Witness for C2: population 2 and one occurrence give a rate of
50000 per 100k, and a zero occurrence count (the robbery column) gives
clearance rate 0. -/
theorem heatmap_rate_zero_guard_witness :
    (0 : ℚ) < (toWorkRow rateRowEx).pop
    ∧ occurRate (toWorkRow rateRowEx) .murder
        = pyRound 1 ((toWorkRow rateRowEx).occur .murder / (toWorkRow rateRowEx).pop * 100000)
    ∧ occurRate (toWorkRow rateRowEx) .murder = 50000
    ∧ arrestRate (toWorkRow rateRowEx) .robbery = 0 := by
  have h0 : (0 : ℚ) < (toWorkRow rateRowEx).pop := by decide
  refine ⟨h0, (heatmap_rate_zero_guard rateRowEx .murder).1 h0, ?_, ?_⟩
  · rw [(heatmap_rate_zero_guard rateRowEx .murder).1 h0]
    have h1 : (toWorkRow rateRowEx).occur .murder = 1 := by decide
    have h2 : (toWorkRow rateRowEx).pop = 2 := by decide
    rw [h1, h2]
    have h3 : (1 : ℚ) / 2 * 100000 * 10 ^ 1 = ((500000 : ℤ) : ℚ) := by norm_num
    rw [pyRound, h3, roundHalfEven_intCast]
    norm_num
  · exact (heatmap_rate_zero_guard rateRowEx .robbery).2.2.2.2 (by decide)

/-! Claim C6. -/

/-- The unit-interval clamp stays in the unit interval. -/
theorem clamp01_bounds (x : ℚ) : 0 ≤ clamp01 x ∧ clamp01 x ≤ 1 := by
  unfold clamp01
  split_ifs <;> constructor <;> linarith

/-- The unit-interval clamp fixes values already in the interval. -/
theorem clamp01_eq_self (x : ℚ) (h0 : 0 ≤ x) (h1 : x ≤ 1) : clamp01 x = x := by
  unfold clamp01
  split_ifs <;> first | rfl | linarith

/-- The negative clamp fixes nonnegative values. -/
theorem clampNeg_eq_self (x : ℚ) (h : 0 ≤ x) : clampNeg x = x := by
  unfold clampNeg
  split_ifs <;> first | rfl | linarith

/-- C6: every value of a normalized column lies in the unit interval
(and, the maximum-zero branch never dividing, no undefined value can
arise). -/
theorem normalizeColumn_unit_range (vs : List ℚ) (v : ℚ)
    (hv : v ∈ normalizeColumn vs) : 0 ≤ v ∧ v ≤ 1 := by
  simp only [normalizeColumn] at hv
  split at hv
  · obtain ⟨w, hw, hwe⟩ := List.mem_map.mp hv
    exact hwe ▸ clamp01_bounds _
  · obtain ⟨w, hw, hwe⟩ := List.mem_map.mp hv
    rw [← hwe]
    exact ⟨le_refl 0, by norm_num⟩

/-- Witness for C6 on a concrete all-zero column, the boundary case of
the claim. -/
theorem normalizeColumn_unit_range_witness :
    (0 : ℚ) ∈ normalizeColumn [0, 0]
    ∧ 0 ≤ (0 : ℚ) ∧ (0 : ℚ) ≤ 1 :=
  ⟨by decide, normalizeColumn_unit_range [0, 0] 0 (by decide)⟩

/-! Claim C7. -/

/-- Rounding fixes values already on the 4-decimal grid. -/
theorem pyRound_quantized (k : ℤ) :
    pyRound 4 ((k : ℚ) / 10 ^ 4) = (k : ℚ) / 10 ^ 4 := by
  unfold pyRound
  have h : ((k : ℚ) / 10 ^ 4) * 10 ^ 4 = (k : ℚ) := by
    field_simp
  rw [h, roundHalfEven_intCast]

/-- The clamp keeps values on the 4-decimal grid. -/
theorem quantized_clamp01 (x : ℚ) (h : ∃ k : ℤ, x = (k : ℚ) / 10 ^ 4) :
    ∃ k : ℤ, clamp01 x = (k : ℚ) / 10 ^ 4 := by
  unfold clamp01
  split_ifs
  · exact ⟨0, by norm_num⟩
  · exact ⟨10 ^ 4, by norm_num⟩
  · exact h

/-- Rounding fixes any value on the 4-decimal grid. -/
theorem pyRound_of_quantized (x : ℚ) (h : ∃ k : ℤ, x = (k : ℚ) / 10 ^ 4) :
    pyRound 4 x = x := by
  obtain ⟨k, hk⟩ := h
  rw [hk, pyRound_quantized]

/-- The fold computing the column maximum returns 0 or an element. -/
theorem foldr_max_zero_cases (l : List ℚ) :
    l.foldr max 0 = 0 ∨ l.foldr max 0 ∈ l := by
  induction l with
  | nil => exact Or.inl rfl
  | cons a t ih =>
    rw [List.foldr_cons]
    rcases max_choice a (t.foldr max 0) with h | h
    · rw [h]
      exact Or.inr (List.mem_cons_self a t)
    · rw [h]
      rcases ih with h2 | h2
      · exact Or.inl h2
      · exact Or.inr (List.mem_cons_of_mem a h2)

/-- Every element is bounded by the fold computing the column maximum. -/
theorem le_foldr_max (l : List ℚ) (x : ℚ) (hx : x ∈ l) : x ≤ l.foldr max 0 := by
  induction l with
  | nil => cases hx
  | cons a t ih =>
    rw [List.foldr_cons]
    rcases List.mem_cons.mp hx with h | h
    · exact h ▸ le_max_left _ _
    · exact le_trans (ih h) (le_max_right _ _)

/-- The fold computing the column maximum is nonnegative. -/
theorem foldr_max_nonneg (l : List ℚ) : 0 ≤ l.foldr max 0 := by
  induction l with
  | nil => exact le_refl 0
  | cons a t ih =>
    rw [List.foldr_cons]
    exact le_trans ih (le_max_right _ _)

/-- Positive-maximum branch of the normalizer. -/
theorem normalizeColumn_eq_pos (xs : List ℚ)
    (h : 0 < (xs.map clampNeg).foldr max 0) :
    normalizeColumn xs
      = (xs.map clampNeg).map
          (fun v => clamp01 (pyRound 4 (v / (xs.map clampNeg).foldr max 0))) := by
  simp only [normalizeColumn]
  rw [if_pos h]

/-- Nonpositive-maximum branch of the normalizer. -/
theorem normalizeColumn_eq_nonpos (xs : List ℚ)
    (h : ¬ 0 < (xs.map clampNeg).foldr max 0) :
    normalizeColumn xs = (xs.map clampNeg).map (fun _ => 0) := by
  simp only [normalizeColumn]
  rw [if_neg h]

/-- Every output of the positive branch is in the unit interval and on
the 4-decimal grid. -/
theorem normalizeColumn_output_spec (vs : List ℚ)
    (hm : 0 < (vs.map clampNeg).foldr max 0) :
    ∀ x ∈ normalizeColumn vs, 0 ≤ x ∧ x ≤ 1 ∧ pyRound 4 x = x := by
  rw [normalizeColumn_eq_pos vs hm]
  intro x hx
  obtain ⟨w, hw, hwe⟩ := List.mem_map.mp hx
  subst hwe
  refine ⟨(clamp01_bounds _).1, (clamp01_bounds _).2, ?_⟩
  exact pyRound_of_quantized _
    (quantized_clamp01 _ ⟨roundHalfEven ((w / (vs.map clampNeg).foldr max 0) * 10 ^ 4), rfl⟩)

/-- C7 (amended): normalization is idempotent as a function, so a column
that is itself the output of the normalizer is returned unchanged; a raw
column merely having maximum 1 may still change, because negative
entries are clamped and entries are re-quantized to 4 decimals. -/
theorem normalizeColumn_idempotent (vs : List ℚ) :
    normalizeColumn (normalizeColumn vs) = normalizeColumn vs := by
  by_cases hm : 0 < (vs.map clampNeg).foldr max 0
  · have helem := normalizeColumn_output_spec vs hm
    have hmem : (vs.map clampNeg).foldr max 0 ∈ vs.map clampNeg := by
      rcases foldr_max_zero_cases (vs.map clampNeg) with h | h
      · rw [h] at hm
        exact absurd hm (lt_irrefl 0)
      · exact h
    have hone : (1 : ℚ) ∈ normalizeColumn vs := by
      rw [normalizeColumn_eq_pos vs hm]
      refine List.mem_map.mpr ⟨(vs.map clampNeg).foldr max 0, hmem, ?_⟩
      rw [div_self (ne_of_gt hm)]
      have h14 : (1 : ℚ) = ((10 ^ 4 : ℤ) : ℚ) / 10 ^ 4 := by norm_num
      rw [h14, pyRound_quantized, ← h14]
      exact clamp01_eq_self 1 (by norm_num) (le_refl 1)
    have hclamp2 : (normalizeColumn vs).map clampNeg = normalizeColumn vs := by
      have hc : ∀ x ∈ normalizeColumn vs, clampNeg x = x :=
        fun x hx => clampNeg_eq_self x (helem x hx).1
      calc (normalizeColumn vs).map clampNeg
          = (normalizeColumn vs).map id := List.map_congr_left hc
        _ = normalizeColumn vs := List.map_id _
    have hm2 : (normalizeColumn vs).foldr max 0 = 1 := by
      apply le_antisymm
      · rcases foldr_max_zero_cases (normalizeColumn vs) with h | h
        · rw [h]
          norm_num
        · exact (helem _ h).2.1
      · exact le_foldr_max _ 1 hone
    have hpos2 : 0 < ((normalizeColumn vs).map clampNeg).foldr max 0 := by
      rw [hclamp2, hm2]
      norm_num
    rw [normalizeColumn_eq_pos _ hpos2, hclamp2, hm2]
    have hfix : ∀ x ∈ normalizeColumn vs,
        clamp01 (pyRound 4 (x / 1)) = id x := by
      intro x hx
      rw [div_one, (helem x hx).2.2]
      exact clamp01_eq_self x (helem x hx).1 (helem x hx).2.1
    rw [List.map_congr_left hfix, List.map_id]
  · have hzero : ∀ x ∈ normalizeColumn vs, x = 0 := by
      rw [normalizeColumn_eq_nonpos vs hm]
      intro x hx
      obtain ⟨w, hw, hwe⟩ := List.mem_map.mp hx
      exact hwe.symm
    have hclamp2 : (normalizeColumn vs).map clampNeg = normalizeColumn vs := by
      have hc : ∀ x ∈ normalizeColumn vs, clampNeg x = x := by
        intro x hx
        rw [hzero x hx]
        exact clampNeg_eq_self 0 (le_refl 0)
      calc (normalizeColumn vs).map clampNeg
          = (normalizeColumn vs).map id := List.map_congr_left hc
        _ = normalizeColumn vs := List.map_id _
    have hm2 : (normalizeColumn vs).foldr max 0 = 0 := by
      apply le_antisymm
      · rcases foldr_max_zero_cases (normalizeColumn vs) with h | h
        · exact le_of_eq h
        · exact le_of_eq (hzero _ h)
      · exact foldr_max_nonneg _
    have hpos2 : ¬ 0 < ((normalizeColumn vs).map clampNeg).foldr max 0 := by
      rw [hclamp2, hm2]
      exact lt_irrefl 0
    rw [normalizeColumn_eq_nonpos _ hpos2, hclamp2]
    have hfix : ∀ x ∈ normalizeColumn vs, (fun _ => (0 : ℚ)) x = id x := by
      intro x hx
      exact (hzero x hx).symm
    rw [List.map_congr_left hfix, List.map_id]

/-- Counterexample to C7 as stated: the column holding -1 and 1 has
maximum 1, yet normalization clamps the negative entry and returns a
different column. -/
theorem normalizeColumn_max_one_counterexample :
    (([-1, 1] : List ℚ).foldr max 0 = 1)
    ∧ (([-1, 1] : List ℚ).maximum = some 1)
    ∧ normalizeColumn [-1, 1] = [0, 1]
    ∧ normalizeColumn [-1, 1] ≠ [-1, 1] := by
  have hmap : ([-1, 1] : List ℚ).map clampNeg = [0, 1] := by
    norm_num [clampNeg]
  have hfold : ([0, 1] : List ℚ).foldr max 0 = 1 := by decide
  have hm : 0 < (([-1, 1] : List ℚ).map clampNeg).foldr max 0 := by
    rw [hmap, hfold]
    norm_num
  have hq0 : clamp01 (pyRound 4 ((0 : ℚ) / 1)) = 0 := by
    rw [div_one, pyRound_of_quantized 0 ⟨0, by norm_num⟩]
    exact clamp01_eq_self 0 (le_refl 0) (by norm_num)
  have hq1 : clamp01 (pyRound 4 ((1 : ℚ) / 1)) = 1 := by
    rw [div_one, pyRound_of_quantized 1 ⟨10 ^ 4, by norm_num⟩]
    exact clamp01_eq_self 1 (by norm_num) (le_refl 1)
  have h3 : normalizeColumn [-1, 1] = [0, 1] := by
    rw [normalizeColumn_eq_pos _ hm, hmap, hfold]
    simp only [List.map_cons, List.map_nil]
    rw [hq0, hq1]
  refine ⟨by decide, by decide, h3, ?_⟩
  rw [h3]
  decide

end SeoulCrime
